import Mathlib

/-!
Shallow embedding of the core of the Modern-GUI spectrometer application:
the protocol line decoder and scan lifecycle of `src/serial_handler.py`
(`SerialHandler`) and the metrics engine of `src/data_processor.py`
(`DataProcessor.calculate_metrics`), together with theorems checking the
specification's claims against these definitions.

Conventions of the embedding:
* Python strings are modelled as `List Char` (named `PyStr`), with the string
  primitives the source uses (`startswith`, `split`, `strip`, `int`)
  reimplemented structurally so that proofs can evaluate them.
* Machine-level effects (serial writes, timer start/stop, closing the port,
  Qt signal emissions) are recorded as an explicit `Effect` trace in the
  order the Python statements execute them.
* The one fallible primitive inside `stop_scan`/`start_scan` and the poll
  tick is the serial write (respectively the serial read); whether it raises
  is passed in as an explicit boolean (respectively as the `ReadOutcome`).
* Python `int(...)` raising `ValueError` is modelled by `pyInt` returning
  `none`; the surrounding `try/except` blocks are translated by case
  analysis.
-/

/-- A Python string, as its list of characters. -/
abbrev PyStr := List Char

/-- Python `str.split(sep)` for a one-character separator, as used by
`line.split("#")` in the source: occurrences of the separator delimit the
pieces, empty pieces included. -/
def pySplit (sep : Char) : PyStr → List PyStr
  | [] => [[]]
  | c :: rest =>
    let r := pySplit sep rest
    if c = sep then [] :: r
    else (c :: r.headD []) :: r.tail

/-- Python `str.startswith(p)`: the first argument is the candidate leading
piece, the second the string. -/
def pyStartsWith : PyStr → PyStr → Bool
  | [], _ => true
  | _ :: _, [] => false
  | p :: ps, c :: cs => p = c && pyStartsWith ps cs

/-- Python `str.strip()`: remove whitespace from both ends. -/
def pyStrip (s : PyStr) : PyStr :=
  ((s.dropWhile Char.isWhitespace).reverse.dropWhile Char.isWhitespace).reverse

/-- Value of a nonempty run of ASCII digits. -/
def digitsToNat (l : PyStr) : Nat :=
  l.foldl (fun acc c => 10 * acc + (c.toNat - 48)) 0

/-- Python `int(string)` on the strings this protocol can produce: optional
surrounding whitespace, an optional sign, then a nonempty run of ASCII
digits; anything else raises `ValueError`, i.e. returns `none` here. -/
def pyInt (s : PyStr) : Option Int :=
  let t := pyStrip s
  let neg := pyStartsWith ['-'] t
  let core := if pyStartsWith ['+'] t || pyStartsWith ['-'] t then t.drop 1 else t
  if core.length ≠ 0 && core.all Char.isDigit then
    some (if neg then -(digitsToNat core : Int) else (digitsToNat core : Int))
  else
    none

/-- Outcome of running the body of the `if line.startswith("d#")` block of
`SerialHandler._read_serial_data` (src/serial_handler.py lines 93-98) on one
complete, already stripped line: either a decoded sample is emitted, or the
line falls through silently (the leading-piece or token-count check fails),
or `int()` raises and control jumps to the enclosing `except` clause. -/
inductive LineResult where
  | sample (x y : Int)
  | dropped
  | exn
  deriving DecidableEq

/-- Per-line decoding logic of `_read_serial_data` (src/serial_handler.py
lines 93-98): the line must start with `"d#"`, split on `"#"` into exactly 3
parts, and parts 2 and 3 must survive `int()`; an `int()` failure is an
exception (`LineResult.exn`), any other violation falls through silently
(`LineResult.dropped`). -/
def processLine (line : PyStr) : LineResult :=
  if pyStartsWith "d#".toList line then
    let parts := pySplit '#' line
    if parts.length = 3 then
      match pyInt (parts.getD 1 []), pyInt (parts.getD 2 []) with
      | some x, some y => LineResult.sample x y
      | _, _ => LineResult.exn
    else LineResult.dropped
  else LineResult.dropped

/-- Modelled from the spec: the Frame Decoder's byte accumulator (spec
section 4.2) is not present in the repository sources — reassembly of lines
split across reads is delegated to the pyserial `readline` call inside
`_read_serial_data`.  Following the spec's words, `feed` appends the new
bytes to the buffered ones, consumes only complete lines (terminated by a
line feed), and keeps any trailing partial line buffered for the next call. -/
def feed (buf chunk : PyStr) : List PyStr × PyStr :=
  let parts := pySplit '\n' (buf ++ chunk)
  (parts.dropLast, parts.getLastD [])

/-- One `feed` step followed by the source's per-line handling: each complete
line is stripped (`.strip()` in `_read_serial_data`) and decoded by
`processLine`; the trailing partial line stays buffered. -/
def decodeFeed (buf chunk : PyStr) : List LineResult × PyStr :=
  let r := feed buf chunk
  (r.1.map (fun l => processLine (pyStrip l)), r.2)


/-- Observable effects of the `SerialHandler` methods, recorded in the order
the Python statements execute them: serial writes, timer control, closing
the port, and the Qt signal emissions (`connection_status_changed`,
`error_occurred`, `data_received`).  Error messages are recorded by their
fixed message text without the appended `str(e)` detail. -/
inductive Effect where
  | writeBytes (data : String)
  | timerStart (ms : Nat)
  | timerStop
  | closePort
  | emitConnection (connected : Bool)
  | emitError (msg : String)
  | emitData (x y : Int)
  deriving DecidableEq

/-- State of the `SerialHandler` together with the spectrum store of the
`DataProcessor` it feeds: `connected` models `serial_port is not None and
serial_port.is_open`, `scanActive` models `scan_active`, `timerRunning`
models whether the poll `QTimer` is started, and `dataPoints` models
`DataProcessor.data_points`, which `MainApp.on_data_received` appends to on
every `data_received` emission. -/
structure SHState where
  connected : Bool
  scanActive : Bool
  timerRunning : Bool
  dataPoints : List (Int × Int)
  deriving DecidableEq

/-- `SerialHandler.stop_scan` (src/serial_handler.py lines 69-80).
`writeFails` says whether the `self.serial_port.write(b'STOP\n')` call
raises.  Note that `self.timer.stop()` and `self.scan_active = False` sit
inside the `try` block after the write, so a raising write jumps straight to
the `except` clause and skips both. -/
def stop_scan (writeFails : Bool) (s : SHState) : SHState × List Effect :=
  if ¬ s.scanActive then (s, [])
  else if s.connected then
    if writeFails then
      (s, [Effect.emitError "Error stopping scan"])
    else
      ({ s with scanActive := false, timerRunning := false },
       [Effect.writeBytes "STOP\n", Effect.timerStop])
  else
    ({ s with scanActive := false, timerRunning := false }, [Effect.timerStop])

/-- `SerialHandler.start_scan` (src/serial_handler.py lines 51-67); the
first component of the result is the method's return value.  `writeFails`
says whether the `self.serial_port.write(b'd#101#1002\n')` call raises. -/
def start_scan (writeFails : Bool) (s : SHState) : Bool × SHState × List Effect :=
  if ¬ s.connected then
    (false, s, [Effect.emitError "No serial connection available"])
  else if s.scanActive then
    (true, s, [])
  else if writeFails then
    (false, s, [Effect.emitError "Failed to start scan"])
  else
    (true, { s with scanActive := true, timerRunning := true },
     [Effect.writeBytes "d#101#1002\n", Effect.timerStart 100])

/-- `SerialHandler.disconnect` (src/serial_handler.py lines 40-45): when the
port is open it first runs `stop_scan` (whose stop-command write raises iff
`stopWriteFails`), then closes the port and emits the connection-changed
signal. -/
def disconnect (stopWriteFails : Bool) (s : SHState) : SHState × List Effect :=
  if s.connected then
    let r := stop_scan stopWriteFails s
    ({ r.1 with connected := false },
     r.2 ++ [Effect.closePort, Effect.emitConnection false])
  else (s, [])

/-- What the serial port delivers during one poll tick: nothing waiting
(`in_waiting` is 0), one complete line (already decoded with
`errors='ignore'` and stripped, as `_read_serial_data` does before parsing),
or the `in_waiting`/`readline` access itself raising. -/
inductive ReadOutcome where
  | noData
  | line (content : PyStr)
  | readRaises
  deriving DecidableEq

/-- One timer tick of `SerialHandler._read_serial_data`
(src/serial_handler.py lines 82-102).  When the guard fails the timer is
stopped; otherwise the read outcome is parsed per `processLine`; a decoded
sample is emitted via `data_received` and appended to the spectrum store
(via `MainApp.on_data_received` → `DataProcessor.add_data_point`); an
exception — from the read itself or from `int()` — runs the `except` clause,
which emits the read error and then calls `stop_scan` (whose stop-command
write raises iff `stopWriteFails`). -/
def pollTick (outcome : ReadOutcome) (stopWriteFails : Bool) (s : SHState) :
    SHState × List Effect :=
  if ¬ s.connected ∨ ¬ s.scanActive then
    ({ s with timerRunning := false }, [Effect.timerStop])
  else
    match outcome with
    | ReadOutcome.noData => (s, [])
    | ReadOutcome.readRaises =>
        let r := stop_scan stopWriteFails s
        (r.1, Effect.emitError "Error reading serial data" :: r.2)
    | ReadOutcome.line content =>
        match processLine content with
        | LineResult.sample x y =>
            ({ s with dataPoints := s.dataPoints ++ [(x, y)] },
             [Effect.emitData x y])
        | LineResult.dropped => (s, [])
        | LineResult.exn =>
            let r := stop_scan stopWriteFails s
            (r.1, Effect.emitError "Error reading serial data" :: r.2)


/-- Maximum of a numpy array (`np.max`), as used on the nonempty intensity
array; 0 on the empty list, which `calculate_metrics` never reaches. -/
def np_max : List ℚ → ℚ
  | [] => 0
  | h :: t => t.foldl max h

/-- First index attaining the maximum (`np.argmax` on a numeric array). -/
def np_argmax (l : List ℚ) : Nat :=
  l.findIdx (fun v => v = np_max l)

/-- Index of the first `True` (`np.argmax` on a boolean array); 0 when every
entry is `False`, as numpy returns the first occurrence of the maximum. -/
def np_argmax_bool (l : List Bool) : Nat :=
  if l.any id then l.findIdx id else 0

/-- Trapezoidal integration `np.trapezoid(y, x)`: the sum of
`(x[i+1] - x[i]) * (y[i] + y[i+1]) / 2` over consecutive index pairs. -/
def np_trapezoid : List ℚ → List ℚ → ℚ
  | y1 :: y2 :: ys, x1 :: x2 :: xs =>
      (x2 - x1) * (y1 + y2) / 2 + np_trapezoid (y2 :: ys) (x2 :: xs)
  | _, _ => 0

/-- Population variance of a list (`np.std` squared); 0 on the empty list,
which the `snr` computation never reaches (it requires at least 2 noise
samples). -/
def np_var (l : List ℚ) : ℚ :=
  if l.length = 0 then 0
  else
    let m := l.sum / (l.length : ℚ)
    ((l.map (fun v => (v - m) ^ 2)).sum) / (l.length : ℚ)

/-- The metrics record computed by `DataProcessor.calculate_metrics`.  All
fields are exact numbers here (the source stores floats); `snr` lives in `ℝ`
because it divides by a standard deviation, i.e. a square root. -/
structure Metrics where
  peak_value : ℚ
  centroid : ℚ
  max_intensity : ℚ
  fwhm : ℚ
  snr : ℝ
  auc : ℚ

open Classical in
/-- `DataProcessor.calculate_metrics` (src/data_processor.py lines 49-107)
as a pure function of the spectrum store `data_points`; the source's
`reset_metrics` zero record is returned for the empty store. -/
noncomputable def calculate_metrics (pts : List (Int × Int)) : Metrics :=
  if pts.isEmpty then
    { peak_value := 0, centroid := 0, max_intensity := 0, fwhm := 0,
      snr := 0, auc := 0 }
  else
    let wavelengths : List ℚ := pts.map (fun p => (p.1 : ℚ))
    let intensities : List ℚ := pts.map (fun p => (p.2 : ℚ))
    let max_intensity := np_max intensities
    let peak_idx := np_argmax intensities
    let peak_value := wavelengths.getD peak_idx 0
    let centroid :=
      if 0 < intensities.sum then
        (List.zipWith (fun a b => a * b) wavelengths intensities).sum /
          intensities.sum
      else 0
    let half_max := max_intensity / 2
    let above_half := intensities.map (fun v => decide (half_max < v))
    let fwhm :=
      if above_half.any id then
        let left_idx := np_argmax_bool above_half
        let right_idx := above_half.length - np_argmax_bool above_half.reverse - 1
        if left_idx < right_idx then
          wavelengths.getD right_idx 0 - wavelengths.getD left_idx 0
        else 0
      else 0
    let auc :=
      if 1 < wavelengths.length then np_trapezoid intensities wavelengths else 0
    let noise := intensities.filter (fun v => decide (v < max_intensity * (1 / 10)))
    let noise_std : ℝ := Real.sqrt (np_var noise : ℚ)
    let snr : ℝ :=
      if noise.length ≠ 0 ∧ 1 < noise.length then
        if 0 < noise_std then (max_intensity : ℝ) / noise_std else 0
      else 0
    { peak_value := peak_value, centroid := centroid,
      max_intensity := max_intensity, fwhm := fwhm, snr := snr, auc := auc }

/-- Written from the specification's words (section 4.5 and section 8):
trapezoidal integration of intensity over wavelength taken in insertion
order, as a direct recursion over the sample list. -/
def trapzSpec : List (Int × Int) → ℚ
  | (w1, i1) :: (w2, i2) :: rest =>
      ((w2 : ℚ) - (w1 : ℚ)) * ((i1 : ℚ) + (i2 : ℚ)) / 2 +
        trapzSpec ((w2, i2) :: rest)
  | _ => 0

theorem np_trapezoid_eq_trapzSpec (pts : List (Int × Int)) :
    np_trapezoid (pts.map (fun p => ((p.2 : Int) : ℚ)))
      (pts.map (fun p => ((p.1 : Int) : ℚ))) = trapzSpec pts := by
  induction pts with
  | nil => simp [np_trapezoid, trapzSpec]
  | cons p rest ih =>
    cases rest with
    | nil => cases p; simp [np_trapezoid, trapzSpec]
    | cons q rest2 =>
      cases p; cases q
      simp only [List.map, np_trapezoid, trapzSpec]
      simp only [List.map] at ih
      rw [ih]


/-- Claim C1, counterexample: the line `"d#x#2"` is malformed under the
claim's decoding rule (token 2 is not an integer), yet receiving it during a
scan does not merely discard it: the `int()` failure runs the `except`
clause of `_read_serial_data`, which stops the scan, so the well-formed line
`"d#500#800"` received on the next tick is no longer decoded (the spectrum
store stays empty). -/
theorem c1_counterexample :
    (pollTick (ReadOutcome.line "d#x#2".toList) false
        ⟨true, true, true, []⟩).1.scanActive = false ∧
    (pollTick (ReadOutcome.line "d#500#800".toList) false
        (pollTick (ReadOutcome.line "d#x#2".toList) false
          ⟨true, true, true, []⟩).1).1.dataPoints = [] := by
  decide

/-- Claim C1, amended: during an active scan, a malformed line that fails
the `"d#"` leading-piece check or the 3-token check is discarded silently —
no sample, no state change, scanning continues — and a well-formed line is
decoded into its sample; but a line passing both structural checks whose
numeric tokens fail `int()` parsing is treated as a read error: the error is
reported and the scan is stopped. -/
theorem c1_amended_drop_keeps_scanning (s : SHState) (ld lg le : PyStr)
    (x y : Int) (hc : s.connected = true) (ha : s.scanActive = true)
    (hd : ¬ (pyStartsWith "d#".toList ld = true ∧ (pySplit '#' ld).length = 3))
    (hg : processLine lg = LineResult.sample x y)
    (he : processLine le = LineResult.exn) :
    pollTick (ReadOutcome.line ld) false s = (s, []) ∧
    pollTick (ReadOutcome.line lg) false s =
      ({ s with dataPoints := s.dataPoints ++ [(x, y)] }, [Effect.emitData x y]) ∧
    pollTick (ReadOutcome.line le) false s =
      ({ s with scanActive := false, timerRunning := false },
       [Effect.emitError "Error reading serial data", Effect.writeBytes "STOP\n",
        Effect.timerStop]) := by
  have hld : processLine ld = LineResult.dropped := by
    by_cases h1 : pyStartsWith "d#".toList ld = true
    · have h2 : ¬ (pySplit '#' ld).length = 3 := fun h2 => hd ⟨h1, h2⟩
      simp only [processLine, if_pos h1, if_neg h2]
    · simp only [processLine, if_neg h1]
  refine ⟨?_, ?_, ?_⟩
  · simp [pollTick, hc, ha, hld]
  · simp [pollTick, hc, ha, hg]
  · simp [pollTick, stop_scan, hc, ha, he]

/-- Claim C1, witness for the amended theorem at concrete inputs. -/
theorem c1_amended_witness :
    pollTick (ReadOutcome.line "foo#1#2".toList) false ⟨true, true, true, []⟩ =
      (⟨true, true, true, []⟩, []) ∧
    pollTick (ReadOutcome.line "d#500#800".toList) false ⟨true, true, true, []⟩ =
      (⟨true, true, true, [(500, 800)]⟩, [Effect.emitData 500 800]) ∧
    pollTick (ReadOutcome.line "d#x#2".toList) false ⟨true, true, true, []⟩ =
      (⟨true, false, false, []⟩,
       [Effect.emitError "Error reading serial data", Effect.writeBytes "STOP\n",
        Effect.timerStop]) :=
  c1_amended_drop_keeps_scanning ⟨true, true, true, []⟩ "foo#1#2".toList
    "d#500#800".toList "d#x#2".toList 500 800 rfl rfl (by decide) (by decide)
    (by decide)

/-- Claim C2, counterexample: with a scan active on an open port, when the
stop-command write raises, `stop_scan` reports the failure but the
transition is blocked: `scan_active` stays `True` and the poll timer keeps
running, because `self.timer.stop()` and `self.scan_active = False` sit
after the write inside the `try` block. -/
theorem c2_counterexample :
    (stop_scan true ⟨true, true, true, []⟩).1.scanActive = true ∧
    (stop_scan true ⟨true, true, true, []⟩).1.timerRunning = true ∧
    (stop_scan true ⟨true, true, true, []⟩).2 =
      [Effect.emitError "Error stopping scan"] := by
  decide

/-- Claim C2, amended: when the stop-command write fails during an active
scan on an open port, the failure is reported but the state transition is
blocked — the state is left unchanged (scan still active, timer still
running) and the only effect is the error report. -/
theorem c2_amended_write_failure_blocks_stop (s : SHState)
    (hc : s.connected = true) (ha : s.scanActive = true) :
    stop_scan true s = (s, [Effect.emitError "Error stopping scan"]) := by
  simp [stop_scan, hc, ha]

/-- Claim C2, witness for the amended theorem at a concrete state. -/
theorem c2_amended_witness :
    stop_scan true ⟨true, true, true, []⟩ =
      (⟨true, true, true, []⟩, [Effect.emitError "Error stopping scan"]) :=
  c2_amended_write_failure_blocks_stop ⟨true, true, true, []⟩ rfl rfl

/-- Claim C3, counterexample: on a poll tick whose read raises, the effect
trace is the error report first, then the scan-stopping actions (stop write
and timer stop) — there are no positions i < j with a scan-stopping action
at i and the error event at j, so the claimed ordering fails. -/
theorem c3_counterexample :
    (pollTick ReadOutcome.readRaises false ⟨true, true, true, []⟩).2 =
      [Effect.emitError "Error reading serial data", Effect.writeBytes "STOP\n",
       Effect.timerStop] ∧
    ¬ ∃ i j : Fin 3, (i : Nat) < (j : Nat) ∧
        ((pollTick ReadOutcome.readRaises false
            ⟨true, true, true, []⟩).2.getD i Effect.closePort = Effect.timerStop ∨
         (pollTick ReadOutcome.readRaises false
            ⟨true, true, true, []⟩).2.getD i Effect.closePort =
           Effect.writeBytes "STOP\n") ∧
        (pollTick ReadOutcome.readRaises false
            ⟨true, true, true, []⟩).2.getD j Effect.closePort =
          Effect.emitError "Error reading serial data" := by
  decide

/-- Claim C3, amended: a read failure during an active scan on an open port
still stops the scan, but the emitted effect order is: error report first,
then the stop-command write and the timer stop. -/
theorem c3_amended_report_precedes_stop (s : SHState)
    (hc : s.connected = true) (ha : s.scanActive = true) :
    pollTick ReadOutcome.readRaises false s =
      ({ s with scanActive := false, timerRunning := false },
       [Effect.emitError "Error reading serial data", Effect.writeBytes "STOP\n",
        Effect.timerStop]) := by
  simp [pollTick, stop_scan, hc, ha]

/-- Claim C3, witness for the amended theorem at a concrete state. -/
theorem c3_amended_witness :
    pollTick ReadOutcome.readRaises false ⟨true, true, true, []⟩ =
      (⟨true, false, false, []⟩,
       [Effect.emitError "Error reading serial data", Effect.writeBytes "STOP\n",
        Effect.timerStop]) :=
  c3_amended_report_precedes_stop ⟨true, true, true, []⟩ rfl rfl

/-- Claim C4: disconnecting with the link open and a scan active performs
`stop_scan` — including the stop-command write — strictly before closing the
port: the full effect trace is stop write, timer stop, port close,
connection-changed, so the stop write (position 0) precedes the close
(position 2). -/
theorem c4_stop_before_close (s : SHState)
    (hc : s.connected = true) (ha : s.scanActive = true) :
    disconnect false s =
      ({ s with connected := false, scanActive := false, timerRunning := false },
       [Effect.writeBytes "STOP\n", Effect.timerStop, Effect.closePort,
        Effect.emitConnection false]) ∧
    (disconnect false s).2.get? 0 = some (Effect.writeBytes "STOP\n") ∧
    (disconnect false s).2.get? 2 = some Effect.closePort := by
  have h : disconnect false s =
      ({ s with connected := false, scanActive := false, timerRunning := false },
       [Effect.writeBytes "STOP\n", Effect.timerStop, Effect.closePort,
        Effect.emitConnection false]) := by
    simp [disconnect, stop_scan, hc, ha]
  exact ⟨h, by rw [h]; rfl, by rw [h]; rfl⟩

/-- Claim C4, witness at a concrete state. -/
theorem c4_witness :
    (disconnect false ⟨true, true, true, []⟩ =
      (⟨false, false, false, []⟩,
       [Effect.writeBytes "STOP\n", Effect.timerStop, Effect.closePort,
        Effect.emitConnection false])) ∧
    (disconnect false ⟨true, true, true, []⟩).2.get? 0 =
      some (Effect.writeBytes "STOP\n") ∧
    (disconnect false ⟨true, true, true, []⟩).2.get? 2 = some Effect.closePort :=
  c4_stop_before_close ⟨true, true, true, []⟩ rfl rfl

/-- Claim C5: feeding the decoder `"d#500#"` and then `"800\n"` yields no
result on the first call — the partial line is buffered byte-for-byte — and
exactly one sample `(500, 800)` on the second call, with an empty buffer
left over. -/
theorem c5_partial_line_reassembly :
    decodeFeed [] "d#500#".toList = ([], "d#500#".toList) ∧
    decodeFeed "d#500#".toList "800\n".toList =
      ([LineResult.sample 500 800], []) := by
  decide

/-- Claim C6: on the spectrum holding the single sample `(500, 800)` the
recomputed metrics record is `peak_value = 500`, `centroid = 500`,
`max_intensity = 800`, `fwhm = 0`, `auc = 0`, `snr = 0`. -/
theorem c6_single_sample_metrics :
    (calculate_metrics [(500, 800)]).peak_value = 500 ∧
    (calculate_metrics [(500, 800)]).centroid = 500 ∧
    (calculate_metrics [(500, 800)]).max_intensity = 800 ∧
    (calculate_metrics [(500, 800)]).fwhm = 0 ∧
    (calculate_metrics [(500, 800)]).auc = 0 ∧
    (calculate_metrics [(500, 800)]).snr = 0 := by
  refine ⟨?_, ?_, ?_, ?_, ?_, ?_⟩ <;>
    norm_num [calculate_metrics, np_max, np_argmax, np_argmax_bool, np_var,
      np_trapezoid, List.findIdx, List.findIdx.go]

/-- Claim C7: the `auc` metric is the trapezoidal integral of intensity over
wavelength in insertion order for spectra with more than one sample and 0
otherwise; in particular the samples `(0,0), (1,10), (2,0)` give `auc = 10`. -/
theorem c7_auc_trapezoid :
    (∀ pts : List (Int × Int),
      (calculate_metrics pts).auc = if 1 < pts.length then trapzSpec pts else 0) ∧
    (calculate_metrics [(0, 0), (1, 10), (2, 0)]).auc = 10 := by
  constructor
  · intro pts
    cases pts with
    | nil => simp [calculate_metrics]
    | cons p rest => simp [calculate_metrics, ← np_trapezoid_eq_trapzSpec]
  · norm_num [calculate_metrics, np_max, np_argmax, np_argmax_bool, np_var,
      np_trapezoid, List.findIdx, List.findIdx.go]

/-- Claim C8: with no link open, `start_scan` returns failure, its only
effect is the no-connection error report, and the state — in particular the
spectrum store `dataPoints`, the scan flag and the poll timer — is left
unchanged; no start-command write and no timer start occur. -/
theorem c8_start_scan_not_connected (s : SHState) (writeFails : Bool)
    (hc : s.connected = false) :
    start_scan writeFails s =
      (false, s, [Effect.emitError "No serial connection available"]) := by
  simp [start_scan, hc]

/-- Claim C8, witness at a concrete disconnected state. -/
theorem c8_witness :
    start_scan false ⟨false, false, false, []⟩ =
      (false, ⟨false, false, false, []⟩,
       [Effect.emitError "No serial connection available"]) :=
  c8_start_scan_not_connected ⟨false, false, false, []⟩ false rfl

/-- Claim C9: the spectrum `[(600, 100), (400, 100)]`, whose wavelengths are
not monotonic, has `fwhm = 400 - 600 = -200 < 0`: the FWHM computed by index
position is not guaranteed non-negative. -/
theorem c9_negative_fwhm :
    (calculate_metrics [(600, 100), (400, 100)]).fwhm = -200 ∧
    (calculate_metrics [(600, 100), (400, 100)]).fwhm < 0 := by
  have h : (calculate_metrics [(600, 100), (400, 100)]).fwhm = -200 := by
    norm_num [calculate_metrics, np_max, np_argmax, np_argmax_bool, np_var,
      np_trapezoid, List.findIdx, List.findIdx.go]
  exact ⟨h, by rw [h]; norm_num⟩

/-- Claim C10: `stop_scan` during an active scan whose port is no longer
open skips the stop-command write (the `if self.is_connected()` guard fails)
and reports no error: it only stops the timer and clears the scan flag, for
either value of the write-failure fault parameter. -/
theorem c10_stop_scan_port_closed (s : SHState) (writeFails : Bool)
    (ha : s.scanActive = true) (hc : s.connected = false) :
    stop_scan writeFails s =
      ({ s with scanActive := false, timerRunning := false },
       [Effect.timerStop]) := by
  simp [stop_scan, ha, hc]

/-- Claim C10, witness at a concrete state with a closed port. -/
theorem c10_witness :
    stop_scan true ⟨false, true, true, []⟩ =
      (⟨false, false, false, []⟩, [Effect.timerStop]) :=
  c10_stop_scan_port_closed ⟨false, true, true, []⟩ true rfl rfl
